import Mathlib

/-!
# Verification of the idempotent transactional upsert + aggregate engine

Shallow embedding of the exercise-session ingestion core:

* `src/src/helpers/aggregateHelper.ts` — `computeAggregates`, `defaultAggregates`
* `src/src/helpers/transactionHelper.ts` — `upsertEventAndUpdateSession` (the
  transaction body as a pure state transformer, and the bounded retry loop)
* `src/src/helpers/idempotencyHelper.ts` — `checkIdempotency`
* `src/src/utils/validator.ts` — `validateTimestamp`, `validateMetrics`
* `src/src/functions/ingestSessionEvent.ts` — idempotency-key extraction and
  the cached-response guard

Conventions of the embedding:

* Firestore `Timestamp` values are represented by their `toMillis()` value as
  an `Int` (every comparison and arithmetic in the source goes through
  `toMillis()`).
* Event measures (`duration`, `distance`, `calories`, `steps`) are represented
  as `Option Int`: the TypeScript `Event` interface declares them `number`,
  but events are read back from the store through an unchecked
  `doc.data() as Event` cast, and the summation helper guards every value
  with `(val || 0)`; `Option.getD 0` models that guard.
* The per-session Firestore state (the session document plus its `events`
  subcollection) is a `SessionState`; a transaction body is a pure function
  from `SessionState` to a result and a new `SessionState`.
* JavaScript `Array.prototype.sort` with comparator
  `(a, b) => a.timestamp.toMillis() - b.timestamp.toMillis()` is a stable
  ascending sort by timestamp; it is embedded as `List.insertionSort`
  (stable, same ordering relation).
* Thrown exceptions are `Except String`.
-/

/-- `src/unnamed/part_001` (`types/event.ts`): the stored event document.
`eventId` is the document key inside the session's `events` subcollection. -/
structure Event where
  eventId : String
  timestamp : Int
  duration : Option Int
  distance : Option Int
  calories : Option Int
  steps : Option Int
  sequenceNumber : Option Int := none
  ingestedAt : Int := 0
  version : Nat := 1
deriving DecidableEq

/-- `src/src/types/session.ts`: `SessionAggregates`. -/
structure SessionAggregates where
  startTime : Int
  endTime : Int
  totalDuration : Int
  totalDistance : Int
  totalCalories : Int
  totalSteps : Int
  eventCount : Nat
  lastEventTime : Int
deriving DecidableEq

/-- `src/src/types/session.ts`: the `Session` document (`endTime` is
`Timestamp | null` in the source, hence `Option Int`). -/
structure Session where
  userId : String
  startTime : Int
  endTime : Option Int
  totalDuration : Int
  totalDistance : Int
  totalCalories : Int
  totalSteps : Int
  eventCount : Nat
  lastEventTime : Int
  version : Nat
  createdAt : Int
  updatedAt : Int
deriving DecidableEq

/-- The comparator `(a, b) => a.timestamp.toMillis() - b.timestamp.toMillis()`
used by every sort in the source, as an ordering relation. -/
def tsLe (a b : Event) : Prop := a.timestamp ≤ b.timestamp

instance : DecidableRel tsLe :=
  fun a b => inferInstanceAs (Decidable (a.timestamp ≤ b.timestamp))

instance : IsTotal Event tsLe := ⟨fun a b => Int.le_total a.timestamp b.timestamp⟩

instance : IsTrans Event tsLe := ⟨fun _ _ _ h₁ h₂ => le_trans h₁ h₂⟩

/-- `[...events].sort((a, b) => a.timestamp.toMillis() - b.timestamp.toMillis())`:
stable ascending sort by timestamp. -/
def sortByTimestamp (events : List Event) : List Event :=
  events.insertionSort tsLe

/-- `aggregateHelper.ts` `sum`: `numbers.reduce((acc, val) => acc + (val || 0), 0)`.
`(val || 0)` coerces a missing value to 0. -/
def jsSum (numbers : List (Option Int)) : Int :=
  numbers.foldl (fun acc val => acc + val.getD 0) 0

/-- `aggregateHelper.ts` `computeAggregates`: throws on an empty list, else
sorts by timestamp and returns the sums, the first and the last sorted
timestamp, and the count.  (The source tests `events.length === 0` before
sorting; sorting preserves emptiness, so matching on the sorted list is the
same test.) -/
def computeAggregates (events : List Event) : Except String SessionAggregates :=
  match sortByTimestamp events with
  | [] => .error "Cannot compute aggregates from empty event list"
  | e :: rest =>
    let sorted := e :: rest
    let lastEvent := sorted.getLast (List.cons_ne_nil e rest)
    .ok
      { startTime := e.timestamp
        endTime := lastEvent.timestamp
        totalDuration := jsSum (sorted.map Event.duration)
        totalDistance := jsSum (sorted.map Event.distance)
        totalCalories := jsSum (sorted.map Event.calories)
        totalSteps := jsSum (sorted.map Event.steps)
        eventCount := sorted.length
        lastEventTime := lastEvent.timestamp }

/-- `aggregateHelper.ts` `defaultAggregates`. -/
def defaultAggregates (timestamp : Int) : SessionAggregates :=
  { startTime := timestamp
    endTime := timestamp
    totalDuration := 0
    totalDistance := 0
    totalCalories := 0
    totalSteps := 0
    eventCount := 0
    lastEventTime := timestamp }

/-- `transactionHelper.ts` `UpsertResult.status` values. -/
inductive UpsertStatus
  | created
  | duplicate
  | updated
deriving DecidableEq

/-- `transactionHelper.ts` `UpsertResult`. -/
structure UpsertResult where
  status : UpsertStatus
  session : Option SessionAggregates
deriving DecidableEq

/-- The aggregate view of a stored session returned on the duplicate path
(lines 48–57): every aggregate field read back, with
`endTime: session.endTime ?? session.startTime`. -/
def sessionAggregatesView (s : Session) : SessionAggregates :=
  { startTime := s.startTime
    endTime := s.endTime.getD s.startTime
    totalDuration := s.totalDuration
    totalDistance := s.totalDistance
    totalCalories := s.totalCalories
    totalSteps := s.totalSteps
    eventCount := s.eventCount
    lastEventTime := s.lastEventTime }

/-- The per-session slice of the store a transaction touches: the `events`
subcollection (in insertion order; `eventId` is the document key) and the
session document. -/
structure SessionState where
  events : List Event
  session : Option Session
deriving DecidableEq

/-- Step 6 of the transaction body: the session document after the write.
An existing session is updated in place with every aggregate field,
`version: (version || 0) + 1` and a fresh `updatedAt`; an absent one is
created with `version: 1` and `createdAt = updatedAt = now`. -/
def applySessionWrite (existing : Option Session) (userId : String) (now : Int)
    (aggregates : SessionAggregates) : Session :=
  match existing with
  | some s =>
    { s with
      startTime := aggregates.startTime
      endTime := some aggregates.endTime
      totalDuration := aggregates.totalDuration
      totalDistance := aggregates.totalDistance
      totalCalories := aggregates.totalCalories
      totalSteps := aggregates.totalSteps
      eventCount := aggregates.eventCount
      lastEventTime := aggregates.lastEventTime
      version := s.version + 1
      updatedAt := now }
  | none =>
    { userId := userId
      startTime := aggregates.startTime
      endTime := some aggregates.endTime
      totalDuration := aggregates.totalDuration
      totalDistance := aggregates.totalDistance
      totalCalories := aggregates.totalCalories
      totalSteps := aggregates.totalSteps
      eventCount := aggregates.eventCount
      lastEventTime := aggregates.lastEventTime
      version := 1
      createdAt := now
      updatedAt := now }

/-- `transactionHelper.ts` `upsertEventAndUpdateSession`, transaction body
(lines 27–108) as a pure state transformer.  Steps, as numbered in the
source: (1) if an event with the incoming `eventId` exists, return
`duplicate` with the stored session's aggregates (or `null`), writing
nothing; (2–3) read the session and all existing events, sorted by
timestamp; (4) insert the new event; (5) recompute aggregates over all
events including the new one; (6) update or create the session document. -/
def upsertEventAndUpdateSession (st : SessionState) (userId : String) (now : Int)
    (event : Event) : Except String (UpsertResult × SessionState) :=
  if st.events.any (fun e => e.eventId == event.eventId) then
    .ok ({ status := .duplicate, session := st.session.map sessionAggregatesView }, st)
  else
    let existingEvents := sortByTimestamp st.events
    let allEvents := existingEvents ++ [event]
    match computeAggregates allEvents with
    | .error msg => .error msg
    | .ok aggregates =>
      .ok ({ status := .created, session := some aggregates },
           { events := st.events ++ [event]
             session := some (applySessionWrite st.session userId now aggregates) })

/-- Outcome of one `db.runTransaction` attempt as seen by the retry loop:
either a result, or a thrown error carrying its message. -/
inductive TxnAttempt (α : Type)
  | ok (result : α)
  | err (message : String)

/-- Whether `pat` occurs at the start of `chars`. -/
def charsStartWith : List Char → List Char → Bool
  | [], _ => true
  | _ :: _, [] => false
  | p :: ps, c :: cs => p == c && charsStartWith ps cs

/-- Whether `pat` occurs contiguously anywhere in `chars`
(`String.prototype.includes` on the underlying character sequences). -/
def charsContain (pat : List Char) : List Char → Bool
  | [] => charsStartWith pat []
  | c :: cs => charsStartWith pat (c :: cs) || charsContain pat cs

/-- `(error as Error).message.includes('transaction')`: the conflict-class
test of the retry loop. -/
def includesTransaction (message : String) : Bool :=
  charsContain "transaction".data message.data

/-- `transactionHelper.ts` line 12. -/
def MAX_TRANSACTION_RETRIES : Nat := 3

/-- `Math.pow(2, attempt) * 100`: the backoff delay (ms) slept after attempt
number `attempt`. -/
def backoffDelay (attempt : Nat) : Nat := 2 ^ attempt * 100

/-- The retry loop of `upsertEventAndUpdateSession` (lines 25–125).
`attempts i` is the outcome of the `i`-th `db.runTransaction` call; `fuel`
is the number of loop iterations left (`MAX_TRANSACTION_RETRIES - attempt`);
`delays` accumulates the backoff sleeps, most recent first.  Returns the
final outcome together with the sleeps performed in order. -/
def retryGo {α : Type} (attempts : Nat → TxnAttempt α) :
    Nat → Nat → List Nat → Except String α × List Nat
  | _, 0, delays => (.error "Transaction failed after retries", delays.reverse)
  | attempt, fuel + 1, delays =>
    match attempts attempt with
    | .ok r => (.ok r, delays.reverse)
    | .err msg =>
      if attempt < MAX_TRANSACTION_RETRIES - 1 && includesTransaction msg then
        retryGo attempts (attempt + 1) fuel (backoffDelay attempt :: delays)
      else
        (.error msg, delays.reverse)

/-- The whole retry wrapper: run up to `MAX_TRANSACTION_RETRIES` attempts,
retrying (after a backoff sleep) exactly those failures whose message
contains `'transaction'`, rethrowing any other failure at once. -/
def runTransactionWithRetry {α : Type} (attempts : Nat → TxnAttempt α) :
    Except String α × List Nat :=
  retryGo attempts 0 MAX_TRANSACTION_RETRIES []

/-- `src/src/types/idempotency.ts`: record status values. -/
inductive IdempotencyStatus
  | processing
  | completed
  | failed
deriving DecidableEq

/-- `src/src/types/idempotency.ts`: `IdempotencyRecord`.  The cached
`response` is an opaque payload (`object` in the source), hence the type
parameter. -/
structure IdempotencyRecord (ρ : Type) where
  sessionId : String
  status : IdempotencyStatus
  response : ρ
  createdAt : Int
  expiresAt : Int
deriving DecidableEq

/-- `src/src/types/idempotency.ts`: `IdempotencyResult`. -/
structure IdempotencyResult (ρ : Type) where
  isDuplicate : Bool
  cachedResponse : Option ρ := none
deriving DecidableEq

/-- `idempotencyHelper.ts` `checkIdempotency` over the record stored under the
key (`none` = document absent) at current time `now` (`Date.now()`).
Returns the result together with the record left in the store (an expired
record is deleted as a side effect). -/
def checkIdempotency {ρ : Type} (record : Option (IdempotencyRecord ρ)) (now : Int) :
    IdempotencyResult ρ × Option (IdempotencyRecord ρ) :=
  match record with
  | none => ({ isDuplicate := false }, none)
  | some data =>
    if data.expiresAt < now then
      ({ isDuplicate := false }, none)
    else if data.status = IdempotencyStatus.completed then
      ({ isDuplicate := true, cachedResponse := some data.response }, some data)
    else
      ({ isDuplicate := true }, some data)

/-- `ingestSessionEvent.ts` step 2 guard
`idempotencyResult.isDuplicate && idempotencyResult.cachedResponse`: the
handler short-circuits with the cached response exactly when this is true;
otherwise it falls through and reprocesses the request.  (A present cached
response is a JavaScript object and objects are truthy.) -/
def servesCachedResponse {ρ : Type} (result : IdempotencyResult ρ) : Bool :=
  result.isDuplicate && result.cachedResponse.isSome

/-- The three places `ingestSessionEvent.ts` step 1 looks for an idempotency
key: the `idempotency-key` header, `body.idempotencyKey`, `body.eventId`
(`none` = absent). -/
structure IngestRequestKeys where
  headerIdempotencyKey : Option String
  bodyIdempotencyKey : Option String
  bodyEventId : Option String
deriving DecidableEq

/-- JavaScript `a || b` on optional strings: `a` unless it is absent or the
empty string (both falsy). -/
def jsStringOr (a b : Option String) : Option String :=
  match a with
  | some s => if s = "" then b else some s
  | none => b

/-- `ingestSessionEvent.ts` lines 71–74:
`req.headers['idempotency-key'] || req.body.idempotencyKey || req.body.eventId`. -/
def extractIdempotencyKey (req : IngestRequestKeys) : Option String :=
  jsStringOr req.headerIdempotencyKey
    (jsStringOr req.bodyIdempotencyKey req.bodyEventId)

/-- `ingestSessionEvent.ts` lines 76–82: the 400 "Idempotency key is
required" response is sent iff `!idempotencyKey`, i.e. the extracted key is
absent or the empty string. -/
def missingKeyResponse (req : IngestRequestKeys) : Bool :=
  match extractIdempotencyKey req with
  | none => true
  | some s => s = ""

/-- `validator.ts` `ValidationResult`. -/
structure ValidationResult where
  isValid : Bool
  errors : List String
deriving DecidableEq

/-- `validator.ts` `ValidationConstraints` (offsets in seconds). -/
structure ValidationConstraints where
  maxDistance : ℚ
  maxCalories : ℚ
  maxSteps : ℚ
  maxDuration : ℚ
  maxFutureOffset : ℚ
  maxPastOffset : ℚ
deriving DecidableEq

/-- `validator.ts` `DEFAULT_CONSTRAINTS`. -/
def DEFAULT_CONSTRAINTS : ValidationConstraints :=
  { maxDistance := 100000
    maxCalories := 10000
    maxSteps := 100000
    maxDuration := 86400
    maxFutureOffset := 3600
    maxPastOffset := 2592000 }

/-- The metric fields of `validator.ts` `RawEventPayload` (JavaScript numbers,
possibly non-integral, possibly absent). -/
structure RawEventMetrics where
  duration : Option ℚ
  distance : Option ℚ
  calories : Option ℚ
  steps : Option ℚ
deriving DecidableEq

/-- `validator.ts` `validateTimestamp`: offsets are
`(timestampMillis - nowMillis) / 1000` (exact division of JavaScript
numbers), compared strictly against the constraint bounds. -/
def validateTimestamp (timestampMillis nowMillis : Int)
    (constraints : ValidationConstraints) : ValidationResult :=
  let futureOffset : ℚ := ((timestampMillis - nowMillis : Int) : ℚ) / 1000
  let pastOffset : ℚ := ((nowMillis - timestampMillis : Int) : ℚ) / 1000
  let errors :=
    (if futureOffset > constraints.maxFutureOffset
     then ["Timestamp is too far in the future"] else [])
    ++ (if pastOffset > constraints.maxPastOffset
        then ["Timestamp is too far in the past"] else [])
  { isValid := errors.isEmpty, errors := errors }

/-- `validator.ts` `validateMetrics` lines 71–79: the distance `if`/`else if`
chain (a field left `undefined` is not checked). -/
def distanceErrors (payload : RawEventMetrics)
    (constraints : ValidationConstraints) : List String :=
  match payload.distance with
  | none => []
  | some d =>
    if d < 0 then ["Distance cannot be negative"]
    else if d > constraints.maxDistance then ["Distance exceeds maximum"]
    else []

/-- `validator.ts` `validateMetrics` lines 82–90: the calories chain. -/
def caloriesErrors (payload : RawEventMetrics)
    (constraints : ValidationConstraints) : List String :=
  match payload.calories with
  | none => []
  | some c =>
    if c < 0 then ["Calories cannot be negative"]
    else if c > constraints.maxCalories then ["Calories exceeds maximum"]
    else []

/-- `validator.ts` `validateMetrics` lines 93–103: the steps chain, with the
`Number.isInteger` check. -/
def stepsErrors (payload : RawEventMetrics)
    (constraints : ValidationConstraints) : List String :=
  match payload.steps with
  | none => []
  | some s =>
    if s < 0 then ["Steps cannot be negative"]
    else if ¬ s.isInt then ["Steps must be an integer"]
    else if s > constraints.maxSteps then ["Steps exceeds maximum"]
    else []

/-- `validator.ts` `validateMetrics` lines 106–114: the duration chain. -/
def durationErrors (payload : RawEventMetrics)
    (constraints : ValidationConstraints) : List String :=
  match payload.duration with
  | none => []
  | some d =>
    if d < 0 then ["Duration cannot be negative"]
    else if d > constraints.maxDuration then ["Duration exceeds maximum"]
    else []

/-- `validator.ts` `validateMetrics`: the error strings pushed in source order
(distance, calories, steps, duration); valid iff none accumulated. -/
def validateMetrics (payload : RawEventMetrics)
    (constraints : ValidationConstraints) : ValidationResult :=
  let errors := distanceErrors payload constraints ++ caloriesErrors payload constraints
    ++ stepsErrors payload constraints ++ durationErrors payload constraints
  { isValid := errors.isEmpty, errors := errors }

/-- Correctness characterization of a `SessionAggregates` value against the
multiset of events it summarizes: totals are the measure sums, `eventCount`
the number of events, `startTime` the true minimum event timestamp,
`endTime` and `lastEventTime` the true maximum. -/
def AggregatesMatch (a : SessionAggregates) (events : List Event) : Prop :=
  a.totalDuration = jsSum (events.map Event.duration) ∧
  a.totalDistance = jsSum (events.map Event.distance) ∧
  a.totalCalories = jsSum (events.map Event.calories) ∧
  a.totalSteps = jsSum (events.map Event.steps) ∧
  a.eventCount = events.length ∧
  ((∃ e ∈ events, e.timestamp = a.startTime) ∧ ∀ e ∈ events, a.startTime ≤ e.timestamp) ∧
  ((∃ e ∈ events, e.timestamp = a.endTime) ∧ ∀ e ∈ events, e.timestamp ≤ a.endTime) ∧
  a.lastEventTime = a.endTime

/-- The spec's Session invariant: the stored session document agrees with
exactly the stored events — totals and count are the sums/count,
`startTime` the minimum timestamp, `endTime` and `lastEventTime` the
maximum. -/
def SessionMatchesEvents (s : Session) (events : List Event) : Prop :=
  s.totalDuration = jsSum (events.map Event.duration) ∧
  s.totalDistance = jsSum (events.map Event.distance) ∧
  s.totalCalories = jsSum (events.map Event.calories) ∧
  s.totalSteps = jsSum (events.map Event.steps) ∧
  s.eventCount = events.length ∧
  ((∃ e ∈ events, e.timestamp = s.startTime) ∧ ∀ e ∈ events, s.startTime ≤ e.timestamp) ∧
  (∃ t, s.endTime = some t ∧ s.lastEventTime = t ∧
    (∃ e ∈ events, e.timestamp = t) ∧ ∀ e ∈ events, e.timestamp ≤ t)

/-- The per-session store before any event: no events, no session document. -/
def initialSessionState : SessionState := { events := [], session := none }

/-- States of one session's store reachable through successful upserts. -/
inductive Reachable : SessionState → Prop
  | init : Reachable initialSessionState
  | step {st st' : SessionState} {userId : String} {now : Int} {event : Event}
      {r : UpsertResult} :
      Reachable st →
      upsertEventAndUpdateSession st userId now event = .ok (r, st') →
      Reachable st'

/-- Submitting one event: the state after a successful upsert; a thrown
upsert commits nothing, leaving the store unchanged. -/
def submitEvent (userId : String) (now : Int) (st : SessionState) (event : Event) :
    SessionState :=
  match upsertEventAndUpdateSession st userId now event with
  | .ok (_, st') => st'
  | .error _ => st

/-- Submitting a list of events in order against an initially empty session,
with aggregate recomputation inside each upsert. -/
def submitAll (userId : String) (now : Int) (events : List Event) : SessionState :=
  events.foldl (submitEvent userId now) initialSessionState

/-- A JavaScript-falsy optional string: absent or empty. -/
def blankKey (o : Option String) : Prop := o = none ∨ o = some ""


/-! ## Concrete instances used to exercise the theorems -/

/-- The three events of the aggregate-correctness test
(`part_000` of `src/unnamed`, AggregateHelper suite). -/
def demoE1 : Event :=
  { eventId := "e1", timestamp := 100, duration := some 10, distance := some 100,
    calories := some 10, steps := some 100 }

def demoE2 : Event :=
  { eventId := "e2", timestamp := 200, duration := some 20, distance := some 200,
    calories := some 20, steps := some 200 }

def demoE3 : Event :=
  { eventId := "e3", timestamp := 300, duration := some 30, distance := some 300,
    calories := some 30, steps := some 300 }

/-- Aggregates of `[demoE1]` alone. -/
def demoAgg1 : SessionAggregates :=
  { startTime := 100, endTime := 100, totalDuration := 10, totalDistance := 100,
    totalCalories := 10, totalSteps := 100, eventCount := 1, lastEventTime := 100 }

/-- The session document created by the first upsert of `demoE1`. -/
def demoSession1 : Session := applySessionWrite none "user-1" 0 demoAgg1

/-- The store after upserting `demoE1` into an empty session. -/
def demoState1 : SessionState := { events := [demoE1], session := some demoSession1 }

/-- Attempt outcomes: write-conflicts on the first two attempts, success on
the third. -/
def transientConflictAttempts : Nat → TxnAttempt Nat := fun i =>
  if i = 0 then .err "transaction conflict A"
  else if i = 1 then .err "transaction conflict B"
  else .ok 7

/-- Attempt outcomes: a write-conflict on every attempt. -/
def persistentConflictAttempts : Nat → TxnAttempt Nat := fun i =>
  if i = 0 then .err "transaction conflict A"
  else if i = 1 then .err "transaction conflict B"
  else .err "transaction conflict C"

/-- Attempt outcomes: a non-conflict failure on the first attempt. -/
def fatalAttempts : Nat → TxnAttempt Nat := fun _ => .err "permission denied"

/-- An unexpired `completed` idempotency record. -/
def completedRecord : IdempotencyRecord String :=
  { sessionId := "session-1", status := .completed, response := "cached success payload",
    createdAt := 0, expiresAt := 1000 }

/-- An unexpired `processing` idempotency record. -/
def processingRecord : IdempotencyRecord String :=
  { sessionId := "session-1", status := .processing, response := "",
    createdAt := 0, expiresAt := 1000 }

/-- An unexpired `failed` idempotency record, caching the original failure
outcome. -/
def failedRecord : IdempotencyRecord String :=
  { sessionId := "session-1", status := .failed, response := "original failure outcome",
    createdAt := 0, expiresAt := 1000 }

/-- A request whose body carries a present-but-empty `idempotencyKey` and
nothing else. -/
def emptyKeyRequest : IngestRequestKeys :=
  { headerIdempotencyKey := none, bodyIdempotencyKey := some "", bodyEventId := none }

/-! ## Lemmas about the aggregate engine -/

theorem jsSum_foldl (numbers : List (Option Int)) (acc : Int) :
    numbers.foldl (fun acc val => acc + val.getD 0) acc
      = acc + (numbers.map (fun val => val.getD 0)).sum := by
  induction numbers generalizing acc with
  | nil => simp
  | cons v vs ih => simp [ih, add_assoc]

theorem jsSum_eq_sum (numbers : List (Option Int)) :
    jsSum numbers = (numbers.map (fun val => val.getD 0)).sum := by
  simpa [jsSum] using jsSum_foldl numbers 0

theorem jsSum_perm {ns₁ ns₂ : List (Option Int)} (h : ns₁.Perm ns₂) :
    jsSum ns₁ = jsSum ns₂ := by
  rw [jsSum_eq_sum, jsSum_eq_sum]
  exact (h.map _).sum_eq

theorem sortByTimestamp_perm (l : List Event) : (sortByTimestamp l).Perm l :=
  List.perm_insertionSort tsLe l

theorem sortByTimestamp_sorted (l : List Event) : (sortByTimestamp l).Sorted tsLe :=
  List.sorted_insertionSort tsLe l

theorem sorted_le_getLast : ∀ (l : List Event), l.Sorted tsLe → ∀ x ∈ l, ∀ (h : l ≠ []),
    x.timestamp ≤ (l.getLast h).timestamp := by
  intro l
  induction l with
  | nil => intro _ x hx; cases hx
  | cons a t ih =>
    intro hs x hx h
    cases t with
    | nil =>
      rcases List.mem_cons.mp hx with rfl | hx'
      · simp
      · cases hx'
    | cons b t' =>
      rw [List.getLast_cons (List.cons_ne_nil b t')]
      rcases List.mem_cons.mp hx with rfl | hx'
      · exact List.rel_of_sorted_cons hs _ (List.getLast_mem (List.cons_ne_nil b t'))
      · exact ih hs.of_cons x hx' (List.cons_ne_nil b t')

/-- On a non-empty input, `computeAggregates` succeeds and its output is the
correct summary of the input multiset. -/
theorem computeAggregates_spec (l : List Event) (hne : l ≠ []) :
    ∃ a, computeAggregates l = .ok a ∧ AggregatesMatch a l := by
  have hperm := sortByTimestamp_perm l
  have hsorted := sortByTimestamp_sorted l
  cases hs : sortByTimestamp l with
  | nil =>
    rw [hs] at hperm
    exact absurd hperm.nil_eq.symm hne
  | cons e rest =>
    rw [hs] at hperm hsorted
    refine ⟨_, by rw [computeAggregates, hs], ?_⟩
    have hmem : ∀ x, x ∈ e :: rest ↔ x ∈ l := fun x => hperm.mem_iff
    have hlast_mem : (e :: rest).getLast (List.cons_ne_nil e rest) ∈ l :=
      (hmem _).mp (List.getLast_mem _)
    refine ⟨jsSum_perm (hperm.map _), jsSum_perm (hperm.map _), jsSum_perm (hperm.map _),
      jsSum_perm (hperm.map _), hperm.length_eq, ⟨⟨e, (hmem e).mp (List.mem_cons_self e rest), rfl⟩, ?_⟩,
      ⟨⟨_, hlast_mem, rfl⟩, ?_⟩, rfl⟩
    · intro x hx
      rcases List.mem_cons.mp ((hmem x).mpr hx) with rfl | hx'
      · exact le_refl _
      · exact List.rel_of_sorted_cons hsorted x hx'
    · intro x hx
      exact sorted_le_getLast _ hsorted x ((hmem x).mpr hx) (List.cons_ne_nil e rest)

theorem aggregatesMatch_perm {a : SessionAggregates} {l₁ l₂ : List Event}
    (hp : l₁.Perm l₂) (h : AggregatesMatch a l₁) : AggregatesMatch a l₂ := by
  obtain ⟨h1, h2, h3, h4, h5, ⟨⟨e₁, he₁, hts₁⟩, hlb⟩, ⟨⟨e₂, he₂, hts₂⟩, hub⟩, h8⟩ := h
  exact ⟨h1.trans (jsSum_perm (hp.map _)), h2.trans (jsSum_perm (hp.map _)),
    h3.trans (jsSum_perm (hp.map _)), h4.trans (jsSum_perm (hp.map _)),
    h5.trans hp.length_eq,
    ⟨⟨e₁, hp.mem_iff.mp he₁, hts₁⟩, fun e he => hlb e (hp.mem_iff.mpr he)⟩,
    ⟨⟨e₂, hp.mem_iff.mp he₂, hts₂⟩, fun e he => hub e (hp.mem_iff.mpr he)⟩, h8⟩

/-- Two correct summaries of permuted inputs are identical. -/
theorem aggregatesMatch_unique {a₁ a₂ : SessionAggregates} {l₁ l₂ : List Event}
    (hp : l₁.Perm l₂) (h₁ : AggregatesMatch a₁ l₁) (h₂ : AggregatesMatch a₂ l₂) :
    a₁ = a₂ := by
  have h₂' : AggregatesMatch a₂ l₁ := aggregatesMatch_perm hp.symm h₂
  obtain ⟨d1, d2, d3, d4, c1, ⟨⟨e₁, he₁, hts₁⟩, hlb₁⟩, ⟨⟨f₁, hf₁, hfts₁⟩, hub₁⟩, le₁⟩ := h₁
  obtain ⟨d1', d2', d3', d4', c1', ⟨⟨e₂, he₂, hts₂⟩, hlb₂⟩, ⟨⟨f₂, hf₂, hfts₂⟩, hub₂⟩, le₂⟩ := h₂'
  have hstart : a₁.startTime = a₂.startTime :=
    le_antisymm (hts₂ ▸ hlb₁ e₂ he₂) (hts₁ ▸ hlb₂ e₁ he₁)
  have hend : a₁.endTime = a₂.endTime :=
    le_antisymm (hfts₁ ▸ hub₂ f₁ hf₁) (hfts₂ ▸ hub₁ f₂ hf₂)
  cases a₁
  cases a₂
  simp only [SessionAggregates.mk.injEq]
  simp_all

/-- `computeAggregates` depends only on the multiset of its input. -/
theorem computeAggregates_perm {l₁ l₂ : List Event} (hp : l₁.Perm l₂) :
    computeAggregates l₁ = computeAggregates l₂ := by
  cases l₁ with
  | nil =>
    have : l₂ = [] := hp.nil_eq.symm
    rw [this]
  | cons e t =>
    have hne₁ : (e :: t : List Event) ≠ [] := List.cons_ne_nil e t
    have hne₂ : l₂ ≠ [] := by
      intro h
      rw [h] at hp
      exact hne₁ hp.eq_nil
    obtain ⟨a₁, heq₁, hm₁⟩ := computeAggregates_spec _ hne₁
    obtain ⟨a₂, heq₂, hm₂⟩ := computeAggregates_spec _ hne₂
    rw [heq₁, heq₂, aggregatesMatch_unique hp hm₁ hm₂]

/-! ## Lemmas about the transactional upsert coordinator -/

/-- On the fresh-event path the transaction succeeds, appends the event to
the store, and writes a session document carrying the freshly recomputed
aggregates. -/
theorem upsert_insert_eq (st : SessionState) (userId : String) (now : Int) (event : Event)
    (h : st.events.any (fun e => e.eventId == event.eventId) = false) :
    ∃ a, computeAggregates (sortByTimestamp st.events ++ [event]) = .ok a ∧
      AggregatesMatch a (st.events ++ [event]) ∧
      upsertEventAndUpdateSession st userId now event =
        .ok ({ status := .created, session := some a },
             { events := st.events ++ [event]
               session := some (applySessionWrite st.session userId now a) }) := by
  have hne : sortByTimestamp st.events ++ [event] ≠ [] := by
    simp
  obtain ⟨a, heq, hmatch⟩ := computeAggregates_spec _ hne
  refine ⟨a, heq, ?_, ?_⟩
  · exact aggregatesMatch_perm ((sortByTimestamp_perm st.events).append_right [event]) hmatch
  · rw [upsertEventAndUpdateSession, if_neg (by simp [h])]
    simp only [heq]

/-- The session document written on the fresh-event path satisfies the
invariant for the new event set. -/
theorem applySessionWrite_matches {a : SessionAggregates} {l : List Event}
    (h : AggregatesMatch a l) (existing : Option Session) (userId : String) (now : Int) :
    SessionMatchesEvents (applySessionWrite existing userId now a) l := by
  obtain ⟨h1, h2, h3, h4, h5, h6, h7, h8⟩ := h
  cases existing with
  | some s =>
    exact ⟨h1, h2, h3, h4, h5, h6, ⟨a.endTime, rfl, h8, h7⟩⟩
  | none =>
    exact ⟨h1, h2, h3, h4, h5, h6, ⟨a.endTime, rfl, h8, h7⟩⟩

/-- Invariant of the step relation: after every successful upsert, the
session document (when events exist) is exactly the summary of the stored
events. -/
theorem reachable_invariant {st : SessionState} (h : Reachable st) :
    st.events ≠ [] → ∃ s, st.session = some s ∧ SessionMatchesEvents s st.events := by
  induction h with
  | init => intro hne; exact absurd rfl hne
  | @step st st' userId now event r hst hstep ih =>
    intro hne
    by_cases hdup : st.events.any (fun e => e.eventId == event.eventId) = true
    · rw [upsertEventAndUpdateSession, if_pos (by simp [hdup])] at hstep
      obtain ⟨-, rfl⟩ := Prod.mk.injEq .. ▸ (Except.ok.injEq .. ▸ hstep)
      exact ih hne
    · obtain ⟨a, -, hmatch, heq⟩ :=
        upsert_insert_eq st userId now event (by simpa using hdup)
      rw [heq] at hstep
      obtain ⟨-, rfl⟩ := Prod.mk.injEq .. ▸ (Except.ok.injEq .. ▸ hstep)
      exact ⟨_, rfl, applySessionWrite_matches hmatch st.session userId now⟩

theorem submitEvent_reachable {st : SessionState} (h : Reachable st)
    (userId : String) (now : Int) (event : Event) :
    Reachable (submitEvent userId now st event) := by
  rw [submitEvent]
  cases heq : upsertEventAndUpdateSession st userId now event with
  | ok p =>
    rcases p with ⟨r, st'⟩
    exact Reachable.step h heq
  | error _ => exact h

theorem foldl_submitEvent_reachable {st : SessionState} (h : Reachable st)
    (userId : String) (now : Int) (l : List Event) :
    Reachable (l.foldl (submitEvent userId now) st) := by
  induction l generalizing st with
  | nil => exact h
  | cons e t ih => exact ih (submitEvent_reachable h userId now e)

theorem submitAll_reachable (userId : String) (now : Int) (l : List Event) :
    Reachable (submitAll userId now l) :=
  foldl_submitEvent_reachable Reachable.init userId now l

/-- Submitting events with pairwise-distinct ids stores exactly those events,
in submission order. -/
theorem foldl_submitEvent_events (userId : String) (now : Int) :
    ∀ (l : List Event) (st : SessionState),
      ((st.events ++ l).map Event.eventId).Nodup →
      (l.foldl (submitEvent userId now) st).events = st.events ++ l := by
  intro l
  induction l with
  | nil => intro st _; simp
  | cons e t ih =>
    intro st hnodup
    have hfresh : st.events.any (fun x => x.eventId == e.eventId) = false := by
      rw [List.any_eq_false]
      intro x hx
      simp only [beq_iff_eq]
      intro hcontra
      have hmem₁ : x.eventId ∈ st.events.map Event.eventId := List.mem_map_of_mem _ hx
      have h' : (st.events.map Event.eventId ++ (e.eventId :: t.map Event.eventId)).Nodup := by
        simpa using hnodup
      have hdisj := (List.nodup_append.mp h').2.2
      exact hdisj hmem₁ (by simp [hcontra])
    obtain ⟨a, -, -, heq⟩ := upsert_insert_eq st userId now e hfresh
    have hstep : submitEvent userId now st e =
        { events := st.events ++ [e]
          session := some (applySessionWrite st.session userId now a) } := by
      rw [submitEvent, heq]
    rw [List.foldl_cons, hstep]
    have := ih { events := st.events ++ [e]
                 session := some (applySessionWrite st.session userId now a) }
      (by simpa using hnodup)
    simpa using this

theorem submitAll_events (userId : String) (now : Int) (l : List Event)
    (hnodup : (l.map Event.eventId).Nodup) :
    (submitAll userId now l).events = l := by
  have := foldl_submitEvent_events userId now l initialSessionState (by simpa using hnodup)
  simpa [submitAll, initialSessionState] using this

theorem sessionMatchesEvents_perm {s : Session} {l₁ l₂ : List Event}
    (hp : l₁.Perm l₂) (h : SessionMatchesEvents s l₁) : SessionMatchesEvents s l₂ := by
  obtain ⟨h1, h2, h3, h4, h5, ⟨⟨e₁, he₁, hts₁⟩, hlb⟩, ⟨t, ht, hlet, ⟨e₂, he₂, hts₂⟩, hub⟩⟩ := h
  exact ⟨h1.trans (jsSum_perm (hp.map _)), h2.trans (jsSum_perm (hp.map _)),
    h3.trans (jsSum_perm (hp.map _)), h4.trans (jsSum_perm (hp.map _)),
    h5.trans hp.length_eq,
    ⟨⟨e₁, hp.mem_iff.mp he₁, hts₁⟩, fun e he => hlb e (hp.mem_iff.mpr he)⟩,
    ⟨t, ht, hlet, ⟨e₂, hp.mem_iff.mp he₂, hts₂⟩, fun e he => hub e (hp.mem_iff.mpr he)⟩⟩

/-- Two session documents correct for the same event multiset agree on every
aggregate field. -/
theorem sessionMatchesEvents_agree {s₁ s₂ : Session} {l : List Event}
    (h₁ : SessionMatchesEvents s₁ l) (h₂ : SessionMatchesEvents s₂ l) :
    s₁.totalDuration = s₂.totalDuration ∧ s₁.totalDistance = s₂.totalDistance ∧
    s₁.totalCalories = s₂.totalCalories ∧ s₁.totalSteps = s₂.totalSteps ∧
    s₁.eventCount = s₂.eventCount ∧ s₁.startTime = s₂.startTime ∧
    s₁.endTime = s₂.endTime ∧ s₁.lastEventTime = s₂.lastEventTime := by
  obtain ⟨d1, d2, d3, d4, c1, ⟨⟨e₁, he₁, hts₁⟩, hlb₁⟩, ⟨t₁, ht₁, hlet₁, ⟨f₁, hf₁, hfts₁⟩, hub₁⟩⟩ := h₁
  obtain ⟨d1', d2', d3', d4', c1', ⟨⟨e₂, he₂, hts₂⟩, hlb₂⟩, ⟨t₂, ht₂, hlet₂, ⟨f₂, hf₂, hfts₂⟩, hub₂⟩⟩ := h₂
  have hts : t₁ = t₂ := le_antisymm (hfts₁ ▸ hub₂ f₁ hf₁) (hfts₂ ▸ hub₁ f₂ hf₂)
  refine ⟨d1.trans d1'.symm, d2.trans d2'.symm, d3.trans d3'.symm, d4.trans d4'.symm,
    c1.trans c1'.symm, ?_, ?_, ?_⟩
  · exact le_antisymm (hts₂ ▸ hlb₁ e₂ he₂) (hts₁ ▸ hlb₂ e₁ he₁)
  · rw [ht₁, ht₂, hts]
  · rw [hlet₁, hlet₂, hts]

/-- C1: For every finite set of distinct-`eventId` events for one session,
submitting them via the upsert coordinator in any permutation order, with
aggregate recomputation after each insert, yields after the last submission
the same final session aggregates: the sums and `eventCount` are invariant
under the permutation, and `startTime`/`endTime` (and `lastEventTime`) equal
the true minimum/maximum event timestamp. -/
theorem upsert_order_independence (userId : String) (now : Int) (l₁ l₂ : List Event)
    (hperm : l₁.Perm l₂) (hnodup : (l₁.map Event.eventId).Nodup) (hne : l₁ ≠ []) :
    ∃ s₁ s₂,
      (submitAll userId now l₁).session = some s₁ ∧
      (submitAll userId now l₂).session = some s₂ ∧
      s₁.totalDuration = s₂.totalDuration ∧
      s₁.totalDistance = s₂.totalDistance ∧
      s₁.totalCalories = s₂.totalCalories ∧
      s₁.totalSteps = s₂.totalSteps ∧
      s₁.eventCount = s₂.eventCount ∧
      s₁.startTime = s₂.startTime ∧ s₁.endTime = s₂.endTime ∧
      s₁.lastEventTime = s₂.lastEventTime ∧
      ((∃ e ∈ l₁, e.timestamp = s₁.startTime) ∧ ∀ e ∈ l₁, s₁.startTime ≤ e.timestamp) ∧
      (∃ t, s₁.endTime = some t ∧ s₁.lastEventTime = t ∧
        (∃ e ∈ l₁, e.timestamp = t) ∧ ∀ e ∈ l₁, e.timestamp ≤ t) := by
  have hnodup₂ : (l₂.map Event.eventId).Nodup := ((hperm.map _).nodup_iff).mp hnodup
  have hne₂ : l₂ ≠ [] := by
    intro h
    rw [h] at hperm
    exact hne hperm.eq_nil
  have hev₁ := submitAll_events userId now l₁ hnodup
  have hev₂ := submitAll_events userId now l₂ hnodup₂
  obtain ⟨s₁, hs₁, hm₁⟩ :=
    reachable_invariant (submitAll_reachable userId now l₁) (by rw [hev₁]; exact hne)
  obtain ⟨s₂, hs₂, hm₂⟩ :=
    reachable_invariant (submitAll_reachable userId now l₂) (by rw [hev₂]; exact hne₂)
  rw [hev₁] at hm₁
  rw [hev₂] at hm₂
  have hm₂' : SessionMatchesEvents s₂ l₁ := sessionMatchesEvents_perm hperm.symm hm₂
  obtain ⟨q1, q2, q3, q4, q5, q6, q7, q8⟩ := sessionMatchesEvents_agree hm₁ hm₂'
  obtain ⟨-, -, -, -, -, hmin, ⟨t, ht, hlet, htmem, hub⟩⟩ := hm₁
  exact ⟨s₁, s₂, hs₁, hs₂, q1, q2, q3, q4, q5, q6, q7, q8, hmin, ⟨t, ht, hlet, htmem, hub⟩⟩

/-- Witness for C1: the three test events submitted in the out-of-order
arrangement `[e3, e1, e2]` versus sorted order. -/
theorem upsert_order_independence_witness :
    ∃ s₁ s₂,
      (submitAll "user-1" 0 [demoE3, demoE1, demoE2]).session = some s₁ ∧
      (submitAll "user-1" 0 [demoE1, demoE2, demoE3]).session = some s₂ ∧
      s₁.totalDuration = s₂.totalDuration ∧
      s₁.totalDistance = s₂.totalDistance ∧
      s₁.totalCalories = s₂.totalCalories ∧
      s₁.totalSteps = s₂.totalSteps ∧
      s₁.eventCount = s₂.eventCount ∧
      s₁.startTime = s₂.startTime ∧ s₁.endTime = s₂.endTime ∧
      s₁.lastEventTime = s₂.lastEventTime ∧
      ((∃ e ∈ [demoE3, demoE1, demoE2], e.timestamp = s₁.startTime) ∧
        ∀ e ∈ [demoE3, demoE1, demoE2], s₁.startTime ≤ e.timestamp) ∧
      (∃ t, s₁.endTime = some t ∧ s₁.lastEventTime = t ∧
        (∃ e ∈ [demoE3, demoE1, demoE2], e.timestamp = t) ∧
        ∀ e ∈ [demoE3, demoE1, demoE2], e.timestamp ≤ t) :=
  upsert_order_independence "user-1" 0 [demoE3, demoE1, demoE2] [demoE1, demoE2, demoE3]
    (by decide) (by decide) (by decide)

/-- C2: After every successful upsert (every reachable state of the
per-session step relation), the session record's totals and `eventCount`
equal the sums and count over exactly the stored events, `startTime` the
minimum stored timestamp, `endTime` and `lastEventTime` the maximum,
whenever at least one event exists. -/
theorem upsert_session_invariant {st : SessionState} (h : Reachable st)
    (hne : st.events ≠ []) :
    ∃ s, st.session = some s ∧ SessionMatchesEvents s st.events :=
  reachable_invariant h hne

/-- The first upsert against an empty session, evaluated. -/
theorem demoStep :
    upsertEventAndUpdateSession initialSessionState "user-1" 0 demoE1 =
      .ok ({ status := .created, session := some demoAgg1 }, demoState1) := rfl

/-- Witness for C2: the state reached by upserting `demoE1` into an empty
session. -/
theorem upsert_session_invariant_witness :
    ∃ s, demoState1.session = some s ∧ SessionMatchesEvents s demoState1.events :=
  upsert_session_invariant (Reachable.step Reachable.init demoStep) (by decide)

/-- C3: When an event with the incoming `eventId` already exists under the
session, the upsert returns `duplicate` with the session's current
aggregates (null when no session document exists) and performs no write:
the event store and the session record are returned unchanged. -/
theorem upsert_duplicate_frame (st : SessionState) (userId : String) (now : Int)
    (event : Event) (h : ∃ ev ∈ st.events, ev.eventId = event.eventId) :
    upsertEventAndUpdateSession st userId now event =
      .ok ({ status := .duplicate, session := st.session.map sessionAggregatesView }, st) := by
  have hany : st.events.any (fun e => e.eventId == event.eventId) = true := by
    rw [List.any_eq_true]
    obtain ⟨ev, hmem, hid⟩ := h
    exact ⟨ev, hmem, beq_iff_eq.mpr hid⟩
  rw [upsertEventAndUpdateSession, if_pos hany]

/-- Witness for C3: re-submitting `demoE1` against the store that already
holds it. -/
theorem upsert_duplicate_frame_witness :
    upsertEventAndUpdateSession demoState1 "user-1" 5 demoE1 =
      .ok ({ status := .duplicate, session := some (sessionAggregatesView demoSession1) },
           demoState1) :=
  upsert_duplicate_frame demoState1 "user-1" 5 demoE1 (by decide)

/-- C4: On every non-empty input `computeAggregates` succeeds with totals
equal to the measure sums (absent measures counted as 0), `startTime` the
minimum timestamp, `endTime` and `lastEventTime` the maximum, and
`eventCount` the number of events; and its result is independent of the
input order. -/
theorem computeAggregates_correct :
    (∀ l : List Event, l ≠ [] →
      ∃ a, computeAggregates l = .ok a ∧ AggregatesMatch a l) ∧
    (∀ l₁ l₂ : List Event, l₁.Perm l₂ →
      computeAggregates l₁ = computeAggregates l₂) :=
  ⟨computeAggregates_spec, fun _ _ hp => computeAggregates_perm hp⟩

/-- Witness for C4: the test events with durations {10,20,30}, distances
{100,200,300}, calories {10,20,30}, steps {100,200,300}, submitted out of
order, yield totals {60, 600, 60, 600} and `eventCount = 3`. -/
theorem computeAggregates_correct_witness :
    computeAggregates [demoE3, demoE1, demoE2] =
      .ok { startTime := 100, endTime := 300, totalDuration := 60, totalDistance := 600,
            totalCalories := 60, totalSteps := 600, eventCount := 3, lastEventTime := 300 } ∧
    computeAggregates [demoE3, demoE1, demoE2] = computeAggregates [demoE1, demoE2, demoE3] ∧
    (∃ a, computeAggregates [demoE3, demoE1, demoE2] = .ok a ∧
      AggregatesMatch a [demoE3, demoE1, demoE2]) :=
  ⟨rfl, computeAggregates_correct.2 _ _ (by decide),
    computeAggregates_correct.1 _ (by decide)⟩

/-- C8: `computeAggregates` on a collection of zero events fails with the
empty-input error; no aggregate value is returned. -/
theorem computeAggregates_empty_input :
    ∀ l : List Event, l.length = 0 →
      computeAggregates l = .error "Cannot compute aggregates from empty event list" := by
  intro l hl
  rw [List.length_eq_zero.mp hl]
  rfl

/-- Witness for C8: the empty list. -/
theorem computeAggregates_empty_input_witness :
    computeAggregates [] = .error "Cannot compute aggregates from empty event list" :=
  computeAggregates_empty_input [] rfl

/-- C5: the coordinator retries only conflict-class failures (message
containing `'transaction'`), up to 3 attempts, sleeping 100ms then 200ms
(base 100ms, doubling); transient conflicts on the first two attempts
followed by success yield the transaction's result with no error; a
conflict persisting through all attempts surfaces the last conflict as a
fatal error; a non-conflict failure propagates immediately with no retry
and no backoff sleep. -/
theorem transaction_retry_policy {α : Type} :
    (∀ (attempts : Nat → TxnAttempt α) (m₀ m₁ : String) (r : α),
      attempts 0 = .err m₀ → includesTransaction m₀ = true →
      attempts 1 = .err m₁ → includesTransaction m₁ = true →
      attempts 2 = .ok r →
      runTransactionWithRetry attempts = (.ok r, [100, 200])) ∧
    (∀ (attempts : Nat → TxnAttempt α) (m₀ m₁ m₂ : String),
      attempts 0 = .err m₀ → includesTransaction m₀ = true →
      attempts 1 = .err m₁ → includesTransaction m₁ = true →
      attempts 2 = .err m₂ → includesTransaction m₂ = true →
      runTransactionWithRetry attempts = (.error m₂, [100, 200])) ∧
    (∀ (attempts : Nat → TxnAttempt α) (m₀ : String),
      attempts 0 = .err m₀ → includesTransaction m₀ = false →
      runTransactionWithRetry attempts = (.error m₀, [])) ∧
    (∀ (attempts : Nat → TxnAttempt α) (m₀ m₁ : String),
      attempts 0 = .err m₀ → includesTransaction m₀ = true →
      attempts 1 = .err m₁ → includesTransaction m₁ = false →
      runTransactionWithRetry attempts = (.error m₁, [100])) := by
  refine ⟨?_, ?_, ?_, ?_⟩
  · intro attempts m₀ m₁ r h0 hc0 h1 hc1 h2
    simp [runTransactionWithRetry, MAX_TRANSACTION_RETRIES, retryGo, h0, h1, h2,
      hc0, hc1, backoffDelay]
  · intro attempts m₀ m₁ m₂ h0 hc0 h1 hc1 h2 hc2
    simp [runTransactionWithRetry, MAX_TRANSACTION_RETRIES, retryGo, h0, h1, h2,
      hc0, hc1, hc2, backoffDelay]
  · intro attempts m₀ h0 hc0
    simp [runTransactionWithRetry, MAX_TRANSACTION_RETRIES, retryGo, h0, hc0]
  · intro attempts m₀ m₁ h0 hc0 h1 hc1
    simp [runTransactionWithRetry, MAX_TRANSACTION_RETRIES, retryGo, h0, h1,
      hc0, hc1, backoffDelay]

/-- Witness for C5: concrete attempt schedules — two transient conflicts
then success; persistent conflict; an immediate non-conflict failure. -/
theorem transaction_retry_policy_witness :
    runTransactionWithRetry transientConflictAttempts = (.ok 7, [100, 200]) ∧
    runTransactionWithRetry persistentConflictAttempts =
      (.error "transaction conflict C", [100, 200]) ∧
    runTransactionWithRetry fatalAttempts = (.error "permission denied", []) :=
  ⟨transaction_retry_policy.1 transientConflictAttempts
      "transaction conflict A" "transaction conflict B" 7
      rfl (by decide) rfl (by decide) rfl,
    (transaction_retry_policy.2.1 persistentConflictAttempts
      "transaction conflict A" "transaction conflict B" "transaction conflict C"
      rfl (by decide) rfl (by decide) rfl (by decide)),
    transaction_retry_policy.2.2.1 fatalAttempts "permission denied" rfl (by decide)⟩

/-- C6: `check(key)` returns novel when the record is absent or expired
(deleting the stale record when expired), duplicate with the cached
response verbatim when present, unexpired and `completed`, and duplicate
with no cached response when present, unexpired and `processing`. -/
theorem checkIdempotency_cases {ρ : Type} :
    (∀ now : Int,
      checkIdempotency (none : Option (IdempotencyRecord ρ)) now =
        ({ isDuplicate := false }, none)) ∧
    (∀ (record : IdempotencyRecord ρ) (now : Int), record.expiresAt < now →
      checkIdempotency (some record) now = ({ isDuplicate := false }, none)) ∧
    (∀ (record : IdempotencyRecord ρ) (now : Int), ¬ record.expiresAt < now →
      record.status = IdempotencyStatus.completed →
      checkIdempotency (some record) now =
        ({ isDuplicate := true, cachedResponse := some record.response }, some record)) ∧
    (∀ (record : IdempotencyRecord ρ) (now : Int), ¬ record.expiresAt < now →
      record.status = IdempotencyStatus.processing →
      checkIdempotency (some record) now = ({ isDuplicate := true }, some record)) := by
  refine ⟨fun _ => rfl, ?_, ?_, ?_⟩
  · intro record now hexp
    simp [checkIdempotency, hexp]
  · intro record now hexp hstatus
    simp [checkIdempotency, hexp, hstatus]
  · intro record now hexp hstatus
    simp [checkIdempotency, hexp, hstatus]

/-- Witness for C6: an absent record, an expired record, an unexpired
completed record, and an unexpired processing record. -/
theorem checkIdempotency_cases_witness :
    checkIdempotency (none : Option (IdempotencyRecord String)) 500 =
      ({ isDuplicate := false }, none) ∧
    checkIdempotency (some completedRecord) 2000 = ({ isDuplicate := false }, none) ∧
    checkIdempotency (some completedRecord) 500 =
      ({ isDuplicate := true, cachedResponse := some completedRecord.response },
        some completedRecord) ∧
    checkIdempotency (some processingRecord) 500 =
      ({ isDuplicate := true }, some processingRecord) :=
  ⟨checkIdempotency_cases.1 500,
    checkIdempotency_cases.2.1 completedRecord 2000 (by decide),
    checkIdempotency_cases.2.2.1 completedRecord 500 (by decide) rfl,
    checkIdempotency_cases.2.2.2 processingRecord 500 (by decide) rfl⟩

/-- Counterexample to C7: an unexpired `failed` record.  `checkIdempotency`
returns duplicate with NO cached response for it, so the handler's guard
`isDuplicate && cachedResponse` is false and the request is fully
reprocessed instead of receiving the original failure outcome. -/
theorem failed_replay_counterexample :
    failedRecord.status = IdempotencyStatus.failed ∧
    ¬ failedRecord.expiresAt < 500 ∧
    (checkIdempotency (some failedRecord) 500).1.cachedResponse = none ∧
    servesCachedResponse (checkIdempotency (some failedRecord) 500).1 = false := by
  refine ⟨rfl, by decide, rfl, rfl⟩

/-- C7 amended: a duplicate request bearing an unexpired `completed` key is
served the cached original response verbatim; an unexpired `failed` key is
NOT served its cached outcome — the guard rejects it and the request is
reprocessed; after TTL expiry the key is treated as novel (the stale record
is deleted). -/
theorem idempotent_replay_amended {ρ : Type} :
    (∀ (record : IdempotencyRecord ρ) (now : Int), ¬ record.expiresAt < now →
      record.status = IdempotencyStatus.completed →
      (checkIdempotency (some record) now).1 =
        { isDuplicate := true, cachedResponse := some record.response } ∧
      servesCachedResponse (checkIdempotency (some record) now).1 = true) ∧
    (∀ (record : IdempotencyRecord ρ) (now : Int), ¬ record.expiresAt < now →
      record.status = IdempotencyStatus.failed →
      (checkIdempotency (some record) now).1 = { isDuplicate := true } ∧
      servesCachedResponse (checkIdempotency (some record) now).1 = false) ∧
    (∀ (record : IdempotencyRecord ρ) (now : Int), record.expiresAt < now →
      (checkIdempotency (some record) now).1 = { isDuplicate := false } ∧
      (checkIdempotency (some record) now).2 = none) := by
  refine ⟨?_, ?_, ?_⟩
  · intro record now hexp hstatus
    simp [checkIdempotency, servesCachedResponse, hexp, hstatus]
  · intro record now hexp hstatus
    simp [checkIdempotency, servesCachedResponse, hexp, hstatus]
  · intro record now hexp
    simp [checkIdempotency, hexp]

/-- Witness for the amended C7: the concrete completed, failed and expired
records. -/
theorem idempotent_replay_amended_witness :
    ((checkIdempotency (some completedRecord) 500).1 =
        { isDuplicate := true, cachedResponse := some completedRecord.response } ∧
      servesCachedResponse (checkIdempotency (some completedRecord) 500).1 = true) ∧
    ((checkIdempotency (some failedRecord) 500).1 = { isDuplicate := true } ∧
      servesCachedResponse (checkIdempotency (some failedRecord) 500).1 = false) ∧
    ((checkIdempotency (some failedRecord) 2000).1 = { isDuplicate := false } ∧
      (checkIdempotency (some failedRecord) 2000).2 = none) :=
  ⟨idempotent_replay_amended.1 completedRecord 500 (by decide) rfl,
    idempotent_replay_amended.2.1 failedRecord 500 (by decide) rfl,
    idempotent_replay_amended.2.2 failedRecord 2000 (by decide)⟩

theorem validateMetrics_isValid_iff (p : RawEventMetrics) (c : ValidationConstraints) :
    (validateMetrics p c).isValid = true ↔
      distanceErrors p c = [] ∧ caloriesErrors p c = [] ∧
      stepsErrors p c = [] ∧ durationErrors p c = [] := by
  simp [validateMetrics, List.isEmpty_iff, List.append_eq_nil]

/-- C9: the validator rejects distance above 100,000 and accepts 100,000 and
below; rejects any negative measure; rejects non-integral steps; rejects
timestamps more than 1 hour ahead or more than 30 days behind; and enforces
the maxima 10,000 (calories), 100,000 (steps) and 86,400 (duration). -/
theorem validation_boundaries :
    (∀ (p : RawEventMetrics) (d : ℚ), p.distance = some d → d > 100000 →
      (validateMetrics p DEFAULT_CONSTRAINTS).isValid = false) ∧
    (∀ d : ℚ, 0 ≤ d → d ≤ 100000 →
      (validateMetrics ⟨none, some d, none, none⟩ DEFAULT_CONSTRAINTS).isValid = true) ∧
    (∀ (p : RawEventMetrics) (v : ℚ), v < 0 →
      (p.duration = some v ∨ p.distance = some v ∨ p.calories = some v ∨ p.steps = some v) →
      (validateMetrics p DEFAULT_CONSTRAINTS).isValid = false) ∧
    (∀ (p : RawEventMetrics) (s : ℚ), p.steps = some s → s.isInt = false →
      (validateMetrics p DEFAULT_CONSTRAINTS).isValid = false) ∧
    (∀ ts now : Int, ((ts - now : Int) : ℚ) / 1000 > 3600 →
      (validateTimestamp ts now DEFAULT_CONSTRAINTS).isValid = false) ∧
    (∀ ts now : Int, ((now - ts : Int) : ℚ) / 1000 > 2592000 →
      (validateTimestamp ts now DEFAULT_CONSTRAINTS).isValid = false) ∧
    (∀ (p : RawEventMetrics) (c : ℚ), p.calories = some c → c > 10000 →
      (validateMetrics p DEFAULT_CONSTRAINTS).isValid = false) ∧
    (∀ (p : RawEventMetrics) (s : ℚ), p.steps = some s → s > 100000 →
      (validateMetrics p DEFAULT_CONSTRAINTS).isValid = false) ∧
    (∀ (p : RawEventMetrics) (d : ℚ), p.duration = some d → d > 86400 →
      (validateMetrics p DEFAULT_CONSTRAINTS).isValid = false) := by
  refine ⟨?_, ?_, ?_, ?_, ?_, ?_, ?_, ?_, ?_⟩
  · intro p d hd hgt
    cases hval : (validateMetrics p DEFAULT_CONSTRAINTS).isValid
    · rfl
    · exfalso
      obtain ⟨hcomp, -, -, -⟩ := (validateMetrics_isValid_iff p _).mp hval
      simp only [distanceErrors, hd] at hcomp
      rw [if_neg (by linarith), if_pos (by simpa [DEFAULT_CONSTRAINTS] using hgt)] at hcomp
      simp at hcomp
  · intro d h0 hle
    refine (validateMetrics_isValid_iff _ _).mpr ⟨?_, rfl, rfl, rfl⟩
    simp only [distanceErrors]
    rw [if_neg (by linarith), if_neg (by simp [DEFAULT_CONSTRAINTS]; linarith)]
  · intro p v hneg hfield
    cases hval : (validateMetrics p DEFAULT_CONSTRAINTS).isValid
    · rfl
    · exfalso
      obtain ⟨h₁, h₂, h₃, h₄⟩ := (validateMetrics_isValid_iff p _).mp hval
      rcases hfield with hf | hf | hf | hf
      · simp only [durationErrors, hf] at h₄
        rw [if_pos hneg] at h₄
        simp at h₄
      · simp only [distanceErrors, hf] at h₁
        rw [if_pos hneg] at h₁
        simp at h₁
      · simp only [caloriesErrors, hf] at h₂
        rw [if_pos hneg] at h₂
        simp at h₂
      · simp only [stepsErrors, hf] at h₃
        rw [if_pos hneg] at h₃
        simp at h₃
  · intro p s hs hint
    cases hval : (validateMetrics p DEFAULT_CONSTRAINTS).isValid
    · rfl
    · exfalso
      obtain ⟨-, -, h₃, -⟩ := (validateMetrics_isValid_iff p _).mp hval
      simp only [stepsErrors, hs] at h₃
      by_cases hneg : s < 0
      · rw [if_pos hneg] at h₃
        simp at h₃
      · rw [if_neg hneg, if_pos (by simp [hint])] at h₃
        simp at h₃
  · intro ts now hgt
    simp only [validateTimestamp]
    rw [if_pos (by simpa [DEFAULT_CONSTRAINTS] using hgt)]
    simp
  · intro ts now hgt
    have hpast : ((now - ts : Int) : ℚ) / 1000 > DEFAULT_CONSTRAINTS.maxPastOffset := by
      simpa [DEFAULT_CONSTRAINTS] using hgt
    simp only [validateTimestamp]
    rw [if_pos hpast]
    simp
  · intro p c hc hgt
    cases hval : (validateMetrics p DEFAULT_CONSTRAINTS).isValid
    · rfl
    · exfalso
      obtain ⟨-, hcomp, -, -⟩ := (validateMetrics_isValid_iff p _).mp hval
      simp only [caloriesErrors, hc] at hcomp
      rw [if_neg (by linarith), if_pos (by simpa [DEFAULT_CONSTRAINTS] using hgt)] at hcomp
      simp at hcomp
  · intro p s hs hgt
    cases hval : (validateMetrics p DEFAULT_CONSTRAINTS).isValid
    · rfl
    · exfalso
      obtain ⟨-, -, h₃, -⟩ := (validateMetrics_isValid_iff p _).mp hval
      simp only [stepsErrors, hs] at h₃
      rw [if_neg (by linarith)] at h₃
      by_cases hint : s.isInt = true
      · rw [if_neg (by simp [hint]), if_pos (by simpa [DEFAULT_CONSTRAINTS] using hgt)] at h₃
        simp at h₃
      · rw [if_pos (by simp [Bool.not_eq_true] at hint ⊢; exact hint)] at h₃
        simp at h₃
  · intro p d hd hgt
    cases hval : (validateMetrics p DEFAULT_CONSTRAINTS).isValid
    · rfl
    · exfalso
      obtain ⟨-, -, -, hcomp⟩ := (validateMetrics_isValid_iff p _).mp hval
      simp only [durationErrors, hd] at hcomp
      rw [if_neg (by linarith), if_pos (by simpa [DEFAULT_CONSTRAINTS] using hgt)] at hcomp
      simp at hcomp

/-- Witness for C9: distance 100,001 rejected and 100,000 accepted; a
negative duration rejected; steps 5/2 rejected as non-integral; a
timestamp 2 hours ahead and one 31 days behind rejected; calories 10,001,
steps 100,001 and duration 86,401 rejected. -/
theorem validation_boundaries_witness :
    (validateMetrics ⟨none, some 100001, none, none⟩ DEFAULT_CONSTRAINTS).isValid = false ∧
    (validateMetrics ⟨none, some 100000, none, none⟩ DEFAULT_CONSTRAINTS).isValid = true ∧
    (validateMetrics ⟨some (-5), none, none, none⟩ DEFAULT_CONSTRAINTS).isValid = false ∧
    (validateMetrics ⟨none, none, none, some (5 / 2)⟩ DEFAULT_CONSTRAINTS).isValid = false ∧
    (validateTimestamp 7200000 0 DEFAULT_CONSTRAINTS).isValid = false ∧
    (validateTimestamp (-2678400000) 0 DEFAULT_CONSTRAINTS).isValid = false ∧
    (validateMetrics ⟨none, none, some 10001, none⟩ DEFAULT_CONSTRAINTS).isValid = false ∧
    (validateMetrics ⟨none, none, none, some 100001⟩ DEFAULT_CONSTRAINTS).isValid = false ∧
    (validateMetrics ⟨some 86401, none, none, none⟩ DEFAULT_CONSTRAINTS).isValid = false := by
  obtain ⟨t₁, t₂, t₃, t₄, t₅, t₆, t₇, t₈, t₉⟩ := validation_boundaries
  exact ⟨t₁ _ 100001 rfl (by norm_num), t₂ 100000 (by norm_num) (by norm_num),
    t₃ _ (-5) (by norm_num) (Or.inl rfl), t₄ _ (5 / 2) rfl (by norm_num [Rat.isInt]),
    t₅ 7200000 0 (by norm_num), t₆ (-2678400000) 0 (by norm_num),
    t₇ _ 10001 rfl (by norm_num), t₈ _ 100001 rfl (by norm_num),
    t₉ _ 86401 rfl (by norm_num)⟩

/-- Counterexample to C10 as stated: a request whose body carries a
present-but-empty `idempotencyKey` (and no header key, no `eventId`) still
receives the 400 missing-key response, although not all three key sources
are absent. -/
theorem missing_key_counterexample :
    missingKeyResponse emptyKeyRequest = true ∧
    emptyKeyRequest.bodyIdempotencyKey ≠ none := by
  exact ⟨rfl, by simp [emptyKeyRequest]⟩

/-- The 400 missing-key response is sent exactly when all three key sources
are JavaScript-falsy (absent or the empty string). -/
theorem missingKeyResponse_true_iff (req : IngestRequestKeys) :
    missingKeyResponse req = true ↔
      blankKey req.headerIdempotencyKey ∧ blankKey req.bodyIdempotencyKey ∧
      blankKey req.bodyEventId := by
  rcases req with ⟨a, b, c⟩
  rcases a with _ | a <;> rcases b with _ | b <;> rcases c with _ | c <;>
    simp [missingKeyResponse, extractIdempotencyKey, jsStringOr, blankKey] <;>
    split_ifs <;> simp_all

/-- C10 amended: a request with no header key and no body `idempotencyKey`
but a non-empty body `eventId` is not rejected — the `eventId` becomes the
idempotency key; the 400 missing-key response occurs only when the header
key, body `idempotencyKey` and body `eventId` are all absent or empty
strings. -/
theorem missing_key_gate :
    (∀ s : String, s ≠ "" →
      missingKeyResponse ⟨none, none, some s⟩ = false ∧
      extractIdempotencyKey ⟨none, none, some s⟩ = some s) ∧
    (∀ req : IngestRequestKeys, missingKeyResponse req = true →
      blankKey req.headerIdempotencyKey ∧ blankKey req.bodyIdempotencyKey ∧
      blankKey req.bodyEventId) := by
  constructor
  · intro s hs
    constructor
    · simp [missingKeyResponse, extractIdempotencyKey, jsStringOr, hs]
    · simp [extractIdempotencyKey, jsStringOr]
  · intro req h
    exact (missingKeyResponse_true_iff req).mp h

/-- Witness for the amended C10: eventId `"evt-1"` alone suffices; the
all-blank request is rejected. -/
theorem missing_key_gate_witness :
    (missingKeyResponse ⟨none, none, some "evt-1"⟩ = false ∧
      extractIdempotencyKey ⟨none, none, some "evt-1"⟩ = some "evt-1") ∧
    (blankKey emptyKeyRequest.headerIdempotencyKey ∧
      blankKey emptyKeyRequest.bodyIdempotencyKey ∧
      blankKey emptyKeyRequest.bodyEventId) :=
  ⟨missing_key_gate.1 "evt-1" (by decide),
    missing_key_gate.2 emptyKeyRequest rfl⟩
